import Mathlib

/-!
Verification of `src/view/scrollable_region.rs`: a fixed-height scrollable
viewport over line-based content.  The Rust struct holds two `usize` fields,
`height` and `line_offset`; we embed them as `Nat` with the same names, and
each method as a pure function (mutating methods return the new state).
-/

/-- Embeds the Rust struct `ScrollableRegion { height: usize, line_offset: usize }`. -/
structure ScrollableRegion where
  height : Nat
  line_offset : Nat
deriving Repr, DecidableEq

/-- Embeds the Rust enum `Visibility` with cases `AboveRegion`, `Visible(usize)`,
`BelowRegion`. -/
inductive Visibility where
  | AboveRegion : Visibility
  | Visible : Nat → Visibility
  | BelowRegion : Visibility
deriving Repr, DecidableEq

/-- Rust's `usize::checked_sub`: `some (a - b)` when no underflow, `none` otherwise. -/
def checked_sub (a b : Nat) : Option Nat :=
  if a < b then none else some (a - b)

/-- Embeds `fn new(height: usize) -> ScrollableRegion`:
`ScrollableRegion { height: height, line_offset: 0 }`. -/
def ScrollableRegion.new (height : Nat) : ScrollableRegion :=
  { height := height, line_offset := 0 }

/-- Embeds `visible_range`: `line_range::new(self.line_offset, self.height + self.line_offset)`.
A `LineRange` is the ordered pair `(start, end)`. -/
def ScrollableRegion.visible_range (r : ScrollableRegion) : Nat × Nat :=
  (r.line_offset, r.height + r.line_offset)

/-- Embeds `scroll_into_view`: compares `line` against `visible_range()` and moves
`line_offset` when the line is outside it; `line - self.height + 1` is `usize`
subtraction, i.e. `Nat` truncated subtraction when it does not underflow. -/
def ScrollableRegion.scroll_into_view (r : ScrollableRegion) (line : Nat) : ScrollableRegion :=
  let range := r.visible_range
  if line < range.1 then
    { r with line_offset := line }
  else if line ≥ range.2 then
    { r with line_offset := line - r.height + 1 }
  else
    r

/-- Embeds `relative_position`: matches on `line.checked_sub(self.line_offset)`. -/
def ScrollableRegion.relative_position (r : ScrollableRegion) (line : Nat) : Visibility :=
  match checked_sub line r.line_offset with
  | some l => if l ≥ r.height then Visibility.BelowRegion else Visibility.Visible l
  | none => Visibility.AboveRegion

/-- Embeds `scroll_up`: `self.line_offset.checked_sub(amount)` with a floor of 0. -/
def ScrollableRegion.scroll_up (r : ScrollableRegion) (amount : Nat) : ScrollableRegion :=
  { r with line_offset :=
      match checked_sub r.line_offset amount with
      | some a => a
      | none => 0 }

/-- Embeds `scroll_down`: `self.line_offset += amount`. -/
def ScrollableRegion.scroll_down (r : ScrollableRegion) (amount : Nat) : ScrollableRegion :=
  { r with line_offset := r.line_offset + amount }

/-- Closed form of `scroll_into_view`, with the guards rephrased over the fields
(the source compares against `visible_range()`, whose bounds are
`line_offset` and `height + line_offset`). -/
theorem scroll_into_view_eq (r : ScrollableRegion) (line : Nat) :
    r.scroll_into_view line =
      if line < r.line_offset then { r with line_offset := line }
      else if line ≥ r.line_offset + r.height then { r with line_offset := line - r.height + 1 }
      else r := by
  unfold ScrollableRegion.scroll_into_view ScrollableRegion.visible_range
  dsimp only
  split_ifs with h1 h2 h3 h4 <;> first | rfl | omega

/-- Closed form of `relative_position`: the `checked_sub` match unfolded into
nested conditionals. -/
theorem relative_position_eq (r : ScrollableRegion) (line : Nat) :
    r.relative_position line =
      if line < r.line_offset then Visibility.AboveRegion
      else if r.height ≤ line - r.line_offset then Visibility.BelowRegion
      else Visibility.Visible (line - r.line_offset) := by
  unfold ScrollableRegion.relative_position checked_sub
  split_ifs with h1 h2 <;> simp_all

section Claims

/-- Claim C1: `scroll_into_view(line)` follows exactly the three-branch rule: if
`line < visible_range().start` the new `line_offset` is `line`; else if
`line ≥ visible_range().end` it is `line - height + 1`; else it is unchanged.
`height` is unchanged in all three cases. -/
theorem scroll_into_view_three_branch (r : ScrollableRegion) (line : Nat) :
    (r.scroll_into_view line).line_offset =
      (if line < r.line_offset then line
       else if line ≥ r.line_offset + r.height then line - r.height + 1
       else r.line_offset) ∧
    (r.scroll_into_view line).height = r.height := by
  rw [scroll_into_view_eq]
  constructor <;> split_ifs <;> rfl

/-- Claim C2: `relative_position(line)` classifies every line exhaustively and
mutually exclusively: `AboveRegion` iff `line < line_offset`, `BelowRegion` iff
`line_offset ≤ line` and `line - line_offset ≥ height`, and `Visible k` iff
`line_offset ≤ line < line_offset + height` with `k = line - line_offset`
(hence the payload is always below `height`). -/
theorem relative_position_classification (r : ScrollableRegion) (line : Nat) :
    (r.relative_position line = Visibility.AboveRegion ↔ line < r.line_offset) ∧
    (r.relative_position line = Visibility.BelowRegion ↔
      r.line_offset ≤ line ∧ r.height ≤ line - r.line_offset) ∧
    (∀ k, r.relative_position line = Visibility.Visible k ↔
      r.line_offset ≤ line ∧ line < r.line_offset + r.height ∧ k = line - r.line_offset) ∧
    (∀ k, r.relative_position line = Visibility.Visible k → k < r.height) := by
  simp only [relative_position_eq]
  refine ⟨?_, ?_, fun k => ?_, fun k => ?_⟩ <;> split_ifs <;> simp_all <;> omega

/-- Claim C3 counterexample: on a fresh region of height 20, after
`scroll_into_view(30)` the offset is 11, so `relative_position(15)` is
`Visible 4`, not `AboveRegion` as the claim states. -/
theorem relative_position_after_scroll_not_above :
    ¬ (((ScrollableRegion.new 20).scroll_into_view 30).relative_position 15 =
        Visibility.AboveRegion) := by
  decide

/-- Claim C3 amended: on a fresh region of height 20, after `scroll_into_view(30)`
(offset becomes 11), `relative_position(15)` is `Visible 4` (as the repository's
own test asserts) and `relative_position(30)` is `Visible 19`. -/
theorem relative_position_after_scroll_values :
    ((ScrollableRegion.new 20).scroll_into_view 30).relative_position 15 =
      Visibility.Visible 4 ∧
    ((ScrollableRegion.new 20).scroll_into_view 30).relative_position 30 =
      Visibility.Visible 19 := by
  decide

/-- Claim C4: the unguarded subtraction in the downward branch of
`scroll_into_view` never underflows: whenever `line ≥ line_offset + height`,
also `line + 1 ≥ height`, and the resulting offset satisfies the exact
(untruncated) equation `offset + height = line + 1`. -/
theorem scroll_into_view_no_underflow (r : ScrollableRegion) (line : Nat)
    (h : line ≥ r.line_offset + r.height) :
    line + 1 ≥ r.height ∧
    (r.scroll_into_view line).line_offset + r.height = line + 1 := by
  refine ⟨by omega, ?_⟩
  rw [scroll_into_view_eq]
  split_ifs <;> dsimp only <;> omega

/-- Claim C4 witness: the downward branch at region height 20, offset 10,
line 40: the branch condition holds and the new offset is 21. -/
theorem scroll_into_view_no_underflow_witness :
    (40 ≥ 10 + 20) ∧
    (40 + 1 ≥ 20 ∧
     (ScrollableRegion.mk 20 10 |>.scroll_into_view 40).line_offset + 20 = 40 + 1) :=
  ⟨by decide, scroll_into_view_no_underflow (ScrollableRegion.mk 20 10) 40 (by decide)⟩

/-- Claim C5: `scroll_up(amount)` is saturating subtraction: the new offset is
`line_offset - amount` when `amount ≤ line_offset` and `0` otherwise, the height
is unchanged, and after any sequence of `scroll_up` calls the offset is a
well-defined natural number (never negative). -/
theorem scroll_up_saturating (r : ScrollableRegion) (amount : Nat) :
    (r.scroll_up amount).line_offset =
      (if amount ≤ r.line_offset then r.line_offset - amount else 0) ∧
    (r.scroll_up amount).height = r.height ∧
    (∀ amounts : List Nat, 0 ≤ (amounts.foldl ScrollableRegion.scroll_up r).line_offset) := by
  refine ⟨?_, rfl, fun amounts => Nat.zero_le _⟩
  unfold ScrollableRegion.scroll_up checked_sub
  split_ifs with h1 h2 <;> simp_all <;> omega

/-- Claim C6: `scroll_down(amount)` unconditionally sets `line_offset` to
`line_offset + amount` and leaves `height` unchanged. -/
theorem scroll_down_adds (r : ScrollableRegion) (amount : Nat) :
    (r.scroll_down amount).line_offset = r.line_offset + amount ∧
    (r.scroll_down amount).height = r.height :=
  ⟨rfl, rfl⟩

/-- Claim C7: for every height ≥ 1, `new(height)` has `line_offset = 0` and
`visible_range() = (0, height)`; more generally every region's `visible_range()`
is exactly `(line_offset, line_offset + height)`. -/
theorem new_and_visible_range (h : Nat) (r : ScrollableRegion) (hh : 1 ≤ h) :
    (ScrollableRegion.new h).line_offset = 0 ∧
    (ScrollableRegion.new h).visible_range = (0, h) ∧
    r.visible_range = (r.line_offset, r.line_offset + r.height) := by
  refine ⟨rfl, ?_, ?_⟩
  · unfold ScrollableRegion.visible_range ScrollableRegion.new
    simp
  · unfold ScrollableRegion.visible_range
    rw [Nat.add_comm]

/-- Claim C7 witness: at height 20 and the region of height 20 with offset 10. -/
theorem new_and_visible_range_witness :
    1 ≤ 20 ∧
    ((ScrollableRegion.new 20).line_offset = 0 ∧
     (ScrollableRegion.new 20).visible_range = (0, 20) ∧
     (ScrollableRegion.mk 20 10).visible_range =
       ((ScrollableRegion.mk 20 10).line_offset,
        (ScrollableRegion.mk 20 10).line_offset + (ScrollableRegion.mk 20 10).height)) :=
  ⟨by decide, new_and_visible_range 20 (ScrollableRegion.mk 20 10) (by decide)⟩

/-- Claim C8: round-trip law: `scroll_down(amount)` then `scroll_up(amount)`
restores the original state whenever `amount` is at most the offset obtained
after the `scroll_down` call (which always holds). -/
theorem scroll_down_up_round_trip (r : ScrollableRegion) (amount : Nat)
    (h : amount ≤ (r.scroll_down amount).line_offset) :
    (r.scroll_down amount).scroll_up amount = r := by
  unfold ScrollableRegion.scroll_down ScrollableRegion.scroll_up checked_sub
  cases r with
  | mk height line_offset =>
    simp only [ScrollableRegion.mk.injEq]
    split_ifs with h1 <;> simp_all <;> omega

/-- Claim C8 witness: height 20, offset 10, amount 7. -/
theorem scroll_down_up_round_trip_witness :
    7 ≤ ((ScrollableRegion.mk 20 10).scroll_down 7).line_offset ∧
    ((ScrollableRegion.mk 20 10).scroll_down 7).scroll_up 7 = ScrollableRegion.mk 20 10 :=
  ⟨by decide, scroll_down_up_round_trip (ScrollableRegion.mk 20 10) 7 (by decide)⟩

/-- Claim C9 counterexample: at height 0 `scroll_into_view` is not idempotent:
from the state `(height 0, offset 0)` one call with line 0 yields offset 1,
but a second call yields offset 0 again. -/
theorem scroll_into_view_not_idempotent_height_zero :
    ¬ (((ScrollableRegion.mk 0 0).scroll_into_view 0).scroll_into_view 0 =
        (ScrollableRegion.mk 0 0).scroll_into_view 0) := by
  decide

/-- Claim C9 amended: for every region of height ≥ 1 and every line,
`scroll_into_view(line)` is idempotent: a second call with the same line
leaves the state of the first call unchanged. -/
theorem scroll_into_view_idempotent (r : ScrollableRegion) (line : Nat)
    (hh : 1 ≤ r.height) :
    (r.scroll_into_view line).scroll_into_view line = r.scroll_into_view line := by
  cases r with
  | mk height line_offset =>
    simp only [scroll_into_view_eq]
    dsimp only at hh ⊢
    split_ifs <;> simp_all <;> omega

/-- Claim C9 witness: idempotence at height 20, offset 10, line 40. -/
theorem scroll_into_view_idempotent_witness :
    1 ≤ (ScrollableRegion.mk 20 10).height ∧
    ((ScrollableRegion.mk 20 10).scroll_into_view 40).scroll_into_view 40 =
      (ScrollableRegion.mk 20 10).scroll_into_view 40 :=
  ⟨by decide, scroll_into_view_idempotent (ScrollableRegion.mk 20 10) 40 (by decide)⟩

/-- Claim C10: at height 0, `relative_position(line)` never returns `Visible`:
it returns `AboveRegion` when `line < line_offset` and `BelowRegion` otherwise,
for every offset (hence every offset reachable by the mutators). -/
theorem relative_position_height_zero (r : ScrollableRegion) (line : Nat)
    (h : r.height = 0) :
    (∀ k, r.relative_position line ≠ Visibility.Visible k) ∧
    (line < r.line_offset → r.relative_position line = Visibility.AboveRegion) ∧
    (r.line_offset ≤ line → r.relative_position line = Visibility.BelowRegion) := by
  simp only [relative_position_eq]
  refine ⟨fun k => ?_, fun hl => ?_, fun hl => ?_⟩ <;> split_ifs <;>
    first | rfl | omega | simp

/-- Claim C10 witness: the region of height 0 and offset 5, queried at lines
below and above the offset. -/
theorem relative_position_height_zero_witness :
    (ScrollableRegion.mk 0 5).height = 0 ∧
    ((∀ k, (ScrollableRegion.mk 0 5).relative_position 3 ≠ Visibility.Visible k) ∧
     (3 < (ScrollableRegion.mk 0 5).line_offset →
       (ScrollableRegion.mk 0 5).relative_position 3 = Visibility.AboveRegion) ∧
     ((ScrollableRegion.mk 0 5).line_offset ≤ 3 →
       (ScrollableRegion.mk 0 5).relative_position 3 = Visibility.BelowRegion)) :=
  ⟨rfl, relative_position_height_zero (ScrollableRegion.mk 0 5) 3 rfl⟩

end Claims
